import Mathlib

/-!
A verification development for the request/retry/reauthentication state
machine and the listing pagination protocol of snoocore
(src/RedditRequest.js), as a shallow embedding in Lean.

External collaborators (the HTTP transport, the two OAuth providers, the
html-entity decoder and the JSON parser) appear as state records or as
function parameters; the orchestrator logic itself is translated
line-by-line from RedditRequest.js.
-/

namespace Snoocore

/-- JavaScript truthiness fallback for numbers: models the expression
v OR d where v is a possibly absent number field (0, null and undefined
are falsy in JavaScript). -/
def jsOrNat (v : Option Nat) (d : Nat) : Nat :=
  match v with
  | some n => if n = 0 then d else n
  | none => d

/-- JavaScript truthiness fallback v OR null for a possibly absent string
field (the empty string, null and undefined are falsy). -/
def jsOrStrNull (v : Option String) : Option String :=
  match v with
  | some s => if s = "" then none else some s
  | none => none

/-- JavaScript truthiness fallback v OR d for a possibly absent string
field with a string default. -/
def jsOrStr (v : Option String) (d : String) : String :=
  match v with
  | some s => if s = "" then d else s
  | none => d

/-- Substring containment over characters: models the JavaScript test
s.indexOf(pat) being different from -1. -/
def strContainsSub (s pat : String) : Bool :=
  (List.range (s.toList.length + 1)).any
    (fun i => pat.toList.isPrefixOf (s.toList.drop i))

/-- Recognized context options of an endpoint (spec data model): bypassAuth,
decodeHtmlEntities and an optional listingIndex. -/
structure ContextOptions where
  bypassAuth : Bool := false
  decodeHtmlEntities : Bool := false
  listingIndex : Option Nat := none
deriving DecidableEq

/-- The call-argument mapping of an endpoint, restricted to the keys that
RedditRequest.js reads or writes: limit, after, before and count. -/
structure Args where
  limit : Option Nat := none
  after : Option String := none
  before : Option String := none
  count : Option Int := none
deriving DecidableEq

/-- The header mapping built by buildHeaders, restricted to the two keys it
sets: User-Agent and Authorization. -/
structure Headers where
  userAgent : Option String := none
  authorization : Option String := none
deriving DecidableEq

/-- Modelled from the spec: the Endpoint descriptor (src/Endpoint.js is not
under src/; only its constructor calls and field reads appear in
RedditRequest.js). Per the spec it is a value object carrying hostname,
method, path, headers, args, contextOptions and port; the constructor
argument read back as givenArgs is the args mapping. -/
structure Endpoint where
  hostname : String
  method : String
  path : String
  headers : Headers
  givenArgs : Args
  contextOptions : ContextOptions
  port : Option Nat
deriving DecidableEq

/-- Modelled from the spec: the args mapping of an endpoint. The spec data
model describes a single mapping of call arguments, so args coincides with
the constructor argument givenArgs. -/
def Endpoint.args (e : Endpoint) : Args := e.givenArgs

/-- Modelled from the spec: Endpoint.setHeaders replaces the headers mapping
(header replacement during in-flight reauth, tolerated by the spec). -/
def Endpoint.setHeaders (e : Endpoint) (h : Headers) : Endpoint :=
  { e with headers := h }

/-- The response headers, restricted to the one key responseErrorHandler
reads: www-authenticate. -/
structure ResponseHeaders where
  wwwAuthenticate : Option String := none
deriving DecidableEq

/-- The transport response shape: numeric status, headers mapping and raw
body string (absent bodies allowed). -/
structure Response where
  status : Nat
  headers : ResponseHeaders := {}
  body : Option String := none
deriving DecidableEq

/-- The queryable token state of one injected OAuth provider, plus the value
its getAuthorizationHeader returns. -/
structure OAuthState where
  hasAccessToken : Bool
  canRefreshAccessToken : Bool
  hasRefreshToken : Bool
  authorizationHeader : String
deriving DecidableEq

/-- The user configuration fields consumed by RedditRequest.js. -/
structure UserConfig where
  isNode : Bool
  userAgent : String
  isOAuthType : String → Bool
  serverOAuth : String
  serverOAuthPort : Option Nat

/-- The RedditRequest instance state: the user configuration and the two
injected OAuth providers (user context and application only). -/
structure RedditRequest where
  userConfig : UserConfig
  oauth : OAuthState
  oauthAppOnly : OAuthState

/-- Modelled from the spec: ResponseError (src/ResponseError.js is not under
src/). All permanent errors carry a message, the triggering response and the
endpoint that produced it. -/
structure ResponseError where
  message : String
  response : Response
  endpoint : Endpoint
deriving DecidableEq

/-- isApplicationOnly from RedditRequest.js: no access token and no way to
refresh one. -/
def RedditRequest.isApplicationOnly (r : RedditRequest) : Bool :=
  !r.oauth.hasAccessToken && !r.oauth.canRefreshAccessToken

/-- buildHeaders from RedditRequest.js: sets User-Agent only under node, and
picks the app-only authorization header when bypassing auth or operating
application only, the user-context header otherwise. -/
def RedditRequest.buildHeaders (r : RedditRequest)
    (contextOptions : ContextOptions) : Headers :=
  let headers : Headers := {}
  let headers :=
    if r.userConfig.isNode then
      { headers with userAgent := some r.userConfig.userAgent }
    else headers
  if contextOptions.bypassAuth || r.isApplicationOnly then
    { headers with authorization := some r.oauthAppOnly.authorizationHeader }
  else
    { headers with authorization := some r.oauth.authorizationHeader }

/-- One of the three reauthentication actions responseErrorHandler can invoke
on the providers. -/
inductive ReauthAction where
  | applicationOnlyAuth
  | refresh
  | auth
deriving DecidableEq

/-- The settled value of the promise responseErrorHandler returns: a typed
rejection, a resolution with a rebuilt endpoint to retry, or a crash (the
JavaScript TypeError raised by chaining .then on an undefined value). -/
inductive HandlerOutcome where
  | reject (err : ResponseError)
  | resolveEndpoint (e : Endpoint)
  | crash
deriving DecidableEq

/-- The observable behaviour of one responseErrorHandler call: its outcome,
the reauthentication actions it invoked (in order), and how many times it
emitted the access_token_expired event. -/
structure HandlerResult where
  outcome : HandlerOutcome
  reauthActions : List ReauthAction
  expiredEmits : Nat
deriving DecidableEq

/-- The www-authenticate check that opens responseErrorHandler:
wwwAuth && wwwAuth.indexOf(insufficient_scope) !== -1 (an absent or empty
header is falsy). -/
def wwwAuthHasInsufficientScope (response : Response) : Bool :=
  match response.headers.wwwAuthenticate with
  | some s => s != "" && strContainsSub s "insufficient_scope"
  | none => false

/-- The modifiedEndpoint built inside responseErrorHandler for the 401 and
5xx recovery paths: a new Endpoint with the same hostname, method, path,
givenArgs, contextOptions and port, and headers recomputed by buildHeaders. -/
def RedditRequest.modifiedEndpoint (r : RedditRequest) (endpoint : Endpoint) :
    Endpoint :=
  { hostname := endpoint.hostname
    method := endpoint.method
    path := endpoint.path
    headers := r.buildHeaders endpoint.contextOptions
    givenArgs := endpoint.givenArgs
    contextOptions := endpoint.contextOptions
    port := endpoint.port }

/-- The tail of the 401 branch: reauthPromise.then(...) with reauthPromise
possibly left undefined. When a reauthentication action was produced we model
the fulfilled path of its promise (the claims all concern successful reauth):
the endpoint headers are refreshed in place and a modifiedEndpoint is
resolved. When none was produced, .then is invoked on undefined, a TypeError:
the crash outcome. -/
def RedditRequest.thenRebuild (r : RedditRequest) (endpoint : Endpoint)
    (reauthPromise : Option ReauthAction) : HandlerResult :=
  match reauthPromise with
  | some a =>
    { outcome := .resolveEndpoint (r.modifiedEndpoint endpoint)
      reauthActions := [a]
      expiredEmits := 0 }
  | none =>
    { outcome := .crash, reauthActions := [], expiredEmits := 0 }

/-- responseErrorHandler from RedditRequest.js, translated branch by branch:
insufficient_scope header first, then 404, then the 401 reauthentication
ladder, then the 5xx first-digit test, then the generic unrecoverable
rejection. -/
def RedditRequest.responseErrorHandler (r : RedditRequest)
    (response : Response) (endpoint : Endpoint) : HandlerResult :=
  if wwwAuthHasInsufficientScope response then
    { outcome := .reject
        ⟨"Insufficient scopes provided for this call", response, endpoint⟩
      reauthActions := [], expiredEmits := 0 }
  else if response.status = 404 then
    { outcome := .reject
        ⟨"Page nod found. Is this a valid endpoint?", response, endpoint⟩
      reauthActions := [], expiredEmits := 0 }
  else if response.status = 401 then
    if r.isApplicationOnly || endpoint.contextOptions.bypassAuth then
      r.thenRebuild endpoint (some .applicationOnlyAuth)
    else if r.oauth.canRefreshAccessToken then
      r.thenRebuild endpoint
        (if r.oauth.hasRefreshToken then some .refresh
         else if r.userConfig.isOAuthType "script" then some .auth
         else none)
    else
      { outcome := .reject
          ⟨"Access token has expired. Listen for " ++
           "the \"access_token_expired\" event to " ++
           "handle this gracefully in your app.", response, endpoint⟩
        reauthActions := [], expiredEmits := 1 }
  else if (toString response.status).take 1 = "5" then
    { outcome := .resolveEndpoint (r.modifiedEndpoint endpoint)
      reauthActions := [], expiredEmits := 0 }
  else
    { outcome := .reject
        ⟨"This call failed. " ++
         "Does this call require a user? " ++
         "Is the user missing reddit gold? " ++
         "Trying to change a subreddit that the user does not moderate? " ++
         "This is an unrecoverable error. Check the rest of the " ++
         "error message for more information.", response, endpoint⟩
      reauthActions := [], expiredEmits := 0 }

/-- The data record of one listing child; getListing reads child.data.stickied
and child.data.name. -/
structure ChildData where
  name : String
  stickied : Bool
deriving DecidableEq

/-- One listing child item, wrapping its data record as reddit does. -/
structure Child where
  data : ChildData
deriving DecidableEq

/-- The data payload of one listing: before and after cursors and the child
items; getListing defaults each missing field (null for the cursors, the
empty sequence for the children). -/
structure ListingData where
  before : Option String := none
  after : Option String := none
  children : Option (List Child) := none
deriving DecidableEq

/-- One listing object as returned by the API, wrapping its data payload. -/
structure Listing where
  data : ListingData
deriving DecidableEq

/-- The parsed result callRedditApi hands to getSlice: either a single
listing object or an array of listings (the latter requires a listingIndex
context option). -/
inductive ApiResult where
  | obj (listing : Listing)
  | arr (listings : List Listing)
deriving DecidableEq

/-- One per-page slice as built inside getSlice, restricted to its data
fields (the navigation closures are modelled separately below). -/
structure Slice where
  count : Int
  before : Option String
  after : Option String
  allChildren : List Child
  empty : Bool
  children : List Child
  stickied : List Child
deriving DecidableEq

/-- The slice-construction part of getSlice, applied to the selected listing:
cursors defaulted to null, allChildren defaulted to the empty sequence, empty
iff no children, and the stickied / non-stickied filters. The count field
records the running closure counter at build time. -/
def mkSlice (count : Int) (listing : Listing) : Slice :=
  let allChildren := listing.data.children.getD []
  { count := count
    before := jsOrStrNull listing.data.before
    after := jsOrStrNull listing.data.after
    allChildren := allChildren
    empty := allChildren.length == 0
    children := allChildren.filter (fun child => !child.data.stickied)
    stickied := allChildren.filter (fun child => child.data.stickied) }

/-- The result-shape probing at the top of getSlice: an array result requires
contextOptions.listingIndex (getSlice throws otherwise), and an out-of-range
index makes the subsequent listing.data read throw a TypeError. -/
def selectListing (contextOptions : ContextOptions) (result : ApiResult) :
    Except String Listing :=
  match result with
  | .obj l => .ok l
  | .arr ls =>
    match contextOptions.listingIndex with
    | none => .error "Must specify a `listingIndex` for this listing."
    | some i =>
      match ls[i]? with
      | some l => .ok l
      | none => .error "TypeError: cannot read data of undefined"

/-- getSlice without its navigation closures: select the listing from the
result and build the slice record. -/
def getSliceResult (contextOptions : ContextOptions) (count : Int)
    (result : ApiResult) : Except String Slice :=
  (selectListing contextOptions result).map (mkSlice count)

/-- The immutable values getListing captures before the first getSlice call:
limit = endpoint.args.limit || 25 and start = endpoint.args.after || null. -/
structure NavCtx where
  limit : Nat
  start : Option String
deriving DecidableEq

/-- The capture performed at the top of getListing. -/
def navCtxOf (endpoint : Endpoint) : NavCtx :=
  { limit := jsOrNat endpoint.args.limit 25
    start := jsOrStrNull endpoint.args.after }

/-- What one navigation closure call produces: the updated running counter,
the originating endpoint as it stands after the call (newArgs aliases
endpoint.args, so the field assignments mutate the originating endpoint's
args in place), and the freshly built request Endpoint handed to getSlice. -/
structure NavStep where
  count : Int
  endpointAfter : Endpoint
  request : Endpoint
deriving DecidableEq

/-- slice.next from getListing: count += limit, then newArgs (aliasing
endpoint.args) gets before = null, after = the name of the last non-stickied
child and count, and a new Endpoint is built from the mutated args with
recomputed headers. Returns none when the slice has no non-stickied child
(the JavaScript dereference of the last element throws a TypeError). -/
def sliceNext (r : RedditRequest) (ctx : NavCtx) (count : Int) (slice : Slice)
    (endpoint : Endpoint) : Option NavStep :=
  match slice.children.getLast? with
  | none => none
  | some lastChild =>
    let newCount := count + (ctx.limit : Int)
    let newArgs :=
      { endpoint.args with
        before := none
        after := some lastChild.data.name
        count := some newCount }
    some
      { count := newCount
        endpointAfter := { endpoint with givenArgs := newArgs }
        request :=
          { hostname := endpoint.hostname
            method := endpoint.method
            path := endpoint.path
            headers := r.buildHeaders endpoint.contextOptions
            givenArgs := newArgs
            contextOptions := endpoint.contextOptions
            port := endpoint.port } }

/-- slice.previous from getListing: count -= limit, newArgs (aliasing
endpoint.args) gets before = the name of the first non-stickied child,
after = null and count; none when the slice has no non-stickied child. -/
def slicePrevious (r : RedditRequest) (ctx : NavCtx) (count : Int)
    (slice : Slice) (endpoint : Endpoint) : Option NavStep :=
  match slice.children.head? with
  | none => none
  | some firstChild =>
    let newCount := count - (ctx.limit : Int)
    let newArgs :=
      { endpoint.args with
        before := some firstChild.data.name
        after := none
        count := some newCount }
    some
      { count := newCount
        endpointAfter := { endpoint with givenArgs := newArgs }
        request :=
          { hostname := endpoint.hostname
            method := endpoint.method
            path := endpoint.path
            headers := r.buildHeaders endpoint.contextOptions
            givenArgs := newArgs
            contextOptions := endpoint.contextOptions
            port := endpoint.port } }

/-- slice.start from getListing: count = 0, newArgs (aliasing endpoint.args)
gets before = null, after = the start cursor captured at the original
getListing invocation, and count = 0. Always succeeds. -/
def sliceStart (r : RedditRequest) (ctx : NavCtx) (endpoint : Endpoint) :
    NavStep :=
  let newArgs :=
    { endpoint.args with
      before := none
      after := ctx.start
      count := some 0 }
  { count := 0
    endpointAfter := { endpoint with givenArgs := newArgs }
    request :=
      { hostname := endpoint.hostname
        method := endpoint.method
        path := endpoint.path
        headers := r.buildHeaders endpoint.contextOptions
        givenArgs := newArgs
        contextOptions := endpoint.contextOptions
        port := endpoint.port } }

/-- slice.requery from getListing: getSlice is re-invoked on the captured
endpoint object exactly as it currently stands. -/
def sliceRequery (endpoint : Endpoint) : Endpoint := endpoint

/-- A navigation action invoked on the most recent slice. -/
inductive NavAction where
  | next
  | previous
  | start
deriving DecidableEq

/-- The mutable listing-iteration state: the running closure counter shared
by all slices of one getListing call, and the endpoint of the current
slice. -/
structure NavState where
  count : Int
  endpoint : Endpoint
deriving DecidableEq

/-- One navigation step: the listing supplied is the API response for the
current endpoint, from which the current slice is built, and the chosen
closure is invoked on it; the request endpoint it builds becomes current. -/
def navStep (r : RedditRequest) (ctx : NavCtx) (s : NavState)
    (step : NavAction × Listing) : Option NavState :=
  let slice := mkSlice s.count step.2
  match step.1 with
  | .next =>
    (sliceNext r ctx s.count slice s.endpoint).map
      (fun st => ⟨st.count, st.request⟩)
  | .previous =>
    (slicePrevious r ctx s.count slice s.endpoint).map
      (fun st => ⟨st.count, st.request⟩)
  | .start =>
    some ⟨(sliceStart r ctx s.endpoint).count, (sliceStart r ctx s.endpoint).request⟩

/-- Run a sequence of navigation steps from a listing-iteration state. -/
def runNav (r : RedditRequest) (ctx : NavCtx) (s : NavState) :
    List (NavAction × Listing) → Option NavState
  | [] => some s
  | step :: rest =>
    match navStep r ctx s step with
    | none => none
    | some s2 => runNav r ctx s2 rest

/-- The value handleSuccessResponse resolves with: either the raw (possibly
decoded) body string, or the structure the JSON parser produced. -/
inductive JsData (α : Type) where
  | str (s : String)
  | parsed (j : α)
deriving DecidableEq

/-- handleSuccessResponse from RedditRequest.js, parametrized by the two
external collaborators it calls: the html-entity decoder (the he module) and
the JSON parser (JSON.parse, returning none where JavaScript would throw,
since the catch block swallows the error). The body defaults to the empty
string, is decoded when contextOptions.decodeHtmlEntities is set, and the
parse attempt falls back to the string itself. Total, so the promise always
resolves. -/
def handleSuccessResponse {α : Type} (heDecode : String → String)
    (jsonParse : String → Option α) (response : Response)
    (endpoint : Endpoint) : JsData α :=
  let data := jsOrStr response.body ""
  let data :=
    if endpoint.contextOptions.decodeHtmlEntities then heDecode data else data
  match jsonParse data with
  | some j => .parsed j
  | none => .str data

/-- The body string after defaulting and optional decoding, as the spec words
it: the raw body defaults to the empty string if absent, and entity decoding
is applied before any JSON parse is attempted. Used to state what
handleSuccessResponse feeds the parser. -/
def decodedBody (heDecode : String → String) (response : Response)
    (endpoint : Endpoint) : String :=
  let raw := jsOrStr response.body ""
  if endpoint.contextOptions.decodeHtmlEntities then heDecode raw else raw

/-!
Concrete fixtures used by the witness and counterexample theorems.
-/

/-- A concrete user configuration of OAuth type script, running under node. -/
def cfgScript : UserConfig :=
  { isNode := true
    userAgent := "snoocore-test"
    isOAuthType := fun s => s == "script"
    serverOAuth := "oauth.reddit.com"
    serverOAuthPort := none }

/-- A concrete user configuration of OAuth type web (so not script). -/
def cfgWeb : UserConfig :=
  { isNode := true
    userAgent := "snoocore-test"
    isOAuthType := fun s => s == "web"
    serverOAuth := "oauth.reddit.com"
    serverOAuthPort := none }

/-- A concrete app-only provider state. -/
def appOnlyState : OAuthState :=
  { hasAccessToken := true
    canRefreshAccessToken := false
    hasRefreshToken := false
    authorizationHeader := "bearer app-token" }

/-- A user-context provider holding an access token and a refresh token. -/
def oauthWithRefresh : OAuthState :=
  { hasAccessToken := true
    canRefreshAccessToken := true
    hasRefreshToken := true
    authorizationHeader := "bearer user-token" }

/-- A user-context provider with an access token but no way to refresh. -/
def oauthNoRefresh : OAuthState :=
  { hasAccessToken := true
    canRefreshAccessToken := false
    hasRefreshToken := false
    authorizationHeader := "bearer user-token" }

/-- A user-context provider that can refresh but holds no refresh token. -/
def oauthRefreshableNoToken : OAuthState :=
  { hasAccessToken := true
    canRefreshAccessToken := true
    hasRefreshToken := false
    authorizationHeader := "bearer user-token" }

/-- A concrete orchestrator whose user provider holds a refresh token. -/
def rWithRefresh : RedditRequest :=
  { userConfig := cfgScript
    oauth := oauthWithRefresh
    oauthAppOnly := appOnlyState }

/-- A concrete orchestrator whose user provider cannot refresh. -/
def rNoRefresh : RedditRequest :=
  { userConfig := cfgScript
    oauth := oauthNoRefresh
    oauthAppOnly := appOnlyState }

/-- A concrete orchestrator of OAuth type web whose user provider reports it
can refresh but holds no refresh token. -/
def rRefreshGap : RedditRequest :=
  { userConfig := cfgWeb
    oauth := oauthRefreshableNoToken
    oauthAppOnly := appOnlyState }

/-- A concrete endpoint with pagination arguments. -/
def epSample : Endpoint :=
  { hostname := "oauth.reddit.com"
    method := "get"
    path := "/r/test/new"
    headers := {}
    givenArgs := { limit := some 2, after := some "t3_orig" }
    contextOptions := {}
    port := none }

/-- A concrete 401 response. -/
def resp401 : Response := { status := 401 }

/-- A concrete 503 response. -/
def resp503 : Response := { status := 503 }

/-- A concrete response whose www-authenticate header reports insufficient
scope. -/
def respScope : Response :=
  { status := 403
    headers := { wwwAuthenticate := some "Bearer error=insufficient_scope" } }

/-- A concrete listing of three children, the middle one stickied. -/
def listingABC : Listing :=
  { data :=
    { before := none
      after := some "t3_c"
      children := some
        [ ⟨⟨"t3_a", false⟩⟩, ⟨⟨"t3_b", true⟩⟩, ⟨⟨"t3_c", false⟩⟩ ] } }

/-!
Theorems for the claims about responseErrorHandler.
-/

/-- C2: a response whose www-authenticate header contains insufficient_scope
is rejected with the scope error carrying the response and the endpoint,
whatever the numeric status, and no reauthentication action or event is
produced: the header check opens the handler. -/
theorem responseErrorHandler_insufficient_scope_rejects
    (r : RedditRequest) (response : Response) (endpoint : Endpoint)
    (h : wwwAuthHasInsufficientScope response = true) :
    r.responseErrorHandler response endpoint =
      { outcome := .reject
          ⟨"Insufficient scopes provided for this call", response, endpoint⟩
        reauthActions := [], expiredEmits := 0 } := by
  simp [RedditRequest.responseErrorHandler, h]

/-- Witness for C2 at a concrete 403 response carrying the header. -/
theorem responseErrorHandler_insufficient_scope_rejects_witness :
    wwwAuthHasInsufficientScope respScope = true ∧
    RedditRequest.responseErrorHandler rWithRefresh respScope epSample =
      { outcome := .reject
          ⟨"Insufficient scopes provided for this call", respScope, epSample⟩
        reauthActions := [], expiredEmits := 0 } :=
  ⟨by decide,
   responseErrorHandler_insufficient_scope_rejects rWithRefresh respScope
     epSample (by decide)⟩

/-- C1: on a 401 without the insufficient_scope header, while not operating
app-only and not bypassing auth, when the user provider can refresh and holds
a refresh token, the handler invokes exactly one reauthentication action,
namely refresh, emits nothing, and resolves with exactly one new endpoint
whose method, path, args, contextOptions and port are those of the failing
endpoint and whose headers are recomputed by buildHeaders. -/
theorem responseErrorHandler_401_refresh_retries_once
    (r : RedditRequest) (response : Response) (endpoint : Endpoint)
    (hscope : wwwAuthHasInsufficientScope response = false)
    (hstatus : response.status = 401)
    (happOnly : r.isApplicationOnly = false)
    (hbypass : endpoint.contextOptions.bypassAuth = false)
    (hrefresh : r.oauth.canRefreshAccessToken = true)
    (htoken : r.oauth.hasRefreshToken = true) :
    (r.responseErrorHandler response endpoint).reauthActions =
        [ReauthAction.refresh] ∧
    (r.responseErrorHandler response endpoint).expiredEmits = 0 ∧
    ∃ e, (r.responseErrorHandler response endpoint).outcome =
        HandlerOutcome.resolveEndpoint e ∧
      e.method = endpoint.method ∧ e.path = endpoint.path ∧
      e.args = endpoint.args ∧ e.contextOptions = endpoint.contextOptions ∧
      e.port = endpoint.port ∧
      e.headers = r.buildHeaders endpoint.contextOptions := by
  simp only [RedditRequest.responseErrorHandler, hscope, hstatus, happOnly,
    hbypass, hrefresh, htoken, RedditRequest.thenRebuild, Bool.false_eq_true,
    if_false, if_true, Bool.or_self, if_pos rfl]
  refine ⟨by simp, by simp, r.modifiedEndpoint endpoint, by simp, rfl, rfl,
    rfl, rfl, rfl, rfl⟩

/-- Witness for C1 at a concrete 401 with a refresh-token-holding provider. -/
theorem responseErrorHandler_401_refresh_retries_once_witness :
    wwwAuthHasInsufficientScope resp401 = false ∧
    resp401.status = 401 ∧
    rWithRefresh.isApplicationOnly = false ∧
    epSample.contextOptions.bypassAuth = false ∧
    rWithRefresh.oauth.canRefreshAccessToken = true ∧
    rWithRefresh.oauth.hasRefreshToken = true ∧
    ((RedditRequest.responseErrorHandler rWithRefresh resp401
        epSample).reauthActions = [ReauthAction.refresh] ∧
     (RedditRequest.responseErrorHandler rWithRefresh resp401
        epSample).expiredEmits = 0 ∧
     ∃ e, (RedditRequest.responseErrorHandler rWithRefresh resp401
        epSample).outcome = HandlerOutcome.resolveEndpoint e ∧
       e.method = epSample.method ∧ e.path = epSample.path ∧
       e.args = epSample.args ∧ e.contextOptions = epSample.contextOptions ∧
       e.port = epSample.port ∧
       e.headers = rWithRefresh.buildHeaders epSample.contextOptions) :=
  ⟨by decide, rfl, by decide, rfl, rfl, rfl,
   responseErrorHandler_401_refresh_retries_once rWithRefresh resp401 epSample
     (by decide) rfl (by decide) rfl rfl rfl⟩

/-- C4: on a 401 without the insufficient_scope header, while not app-only,
not bypassing auth and with a provider that cannot refresh, the handler emits
access_token_expired exactly once, invokes no reauthentication action, and
rejects with an error carrying the response and the endpoint. -/
theorem responseErrorHandler_401_expired_emits_once
    (r : RedditRequest) (response : Response) (endpoint : Endpoint)
    (hscope : wwwAuthHasInsufficientScope response = false)
    (hstatus : response.status = 401)
    (happOnly : r.isApplicationOnly = false)
    (hbypass : endpoint.contextOptions.bypassAuth = false)
    (hrefresh : r.oauth.canRefreshAccessToken = false) :
    (r.responseErrorHandler response endpoint).expiredEmits = 1 ∧
    (r.responseErrorHandler response endpoint).reauthActions = [] ∧
    ∃ msg, (r.responseErrorHandler response endpoint).outcome =
        HandlerOutcome.reject ⟨msg, response, endpoint⟩ := by
  have hred : r.responseErrorHandler response endpoint =
      { outcome := .reject
          ⟨"Access token has expired. Listen for " ++
           "the \"access_token_expired\" event to " ++
           "handle this gracefully in your app.", response, endpoint⟩
        reauthActions := [], expiredEmits := 1 } := by
    simp [RedditRequest.responseErrorHandler, hscope, hstatus, happOnly,
      hbypass, hrefresh]
  rw [hred]
  exact ⟨rfl, rfl, ⟨_, rfl⟩⟩

/-- Witness for C4 at a concrete 401 with a non-refreshable provider. -/
theorem responseErrorHandler_401_expired_emits_once_witness :
    wwwAuthHasInsufficientScope resp401 = false ∧
    resp401.status = 401 ∧
    rNoRefresh.isApplicationOnly = false ∧
    epSample.contextOptions.bypassAuth = false ∧
    rNoRefresh.oauth.canRefreshAccessToken = false ∧
    ((RedditRequest.responseErrorHandler rNoRefresh resp401
        epSample).expiredEmits = 1 ∧
     (RedditRequest.responseErrorHandler rNoRefresh resp401
        epSample).reauthActions = [] ∧
     ∃ msg, (RedditRequest.responseErrorHandler rNoRefresh resp401
        epSample).outcome = HandlerOutcome.reject ⟨msg, resp401, epSample⟩) :=
  ⟨by decide, rfl, by decide, rfl, rfl,
   responseErrorHandler_401_expired_emits_once rNoRefresh resp401 epSample
     (by decide) rfl (by decide) rfl rfl⟩

/-- C3: on a response whose decimal status starts with the digit 5 and
without the insufficient_scope header, the handler invokes no
reauthentication action, emits nothing, and resolves with exactly one rebuilt
endpoint sharing the failing endpoint's method, path, args, contextOptions
and port, with headers recomputed by buildHeaders. -/
theorem responseErrorHandler_5xx_retries_without_reauth
    (r : RedditRequest) (response : Response) (endpoint : Endpoint)
    (hscope : wwwAuthHasInsufficientScope response = false)
    (h5 : (toString response.status).take 1 = "5") :
    (r.responseErrorHandler response endpoint).reauthActions = [] ∧
    (r.responseErrorHandler response endpoint).expiredEmits = 0 ∧
    ∃ e, (r.responseErrorHandler response endpoint).outcome =
        HandlerOutcome.resolveEndpoint e ∧
      e.method = endpoint.method ∧ e.path = endpoint.path ∧
      e.args = endpoint.args ∧ e.contextOptions = endpoint.contextOptions ∧
      e.port = endpoint.port ∧
      e.headers = r.buildHeaders endpoint.contextOptions := by
  have h404 : ¬(response.status = 404) := by
    intro h; rw [h] at h5; exact absurd h5 (by decide)
  have h401 : ¬(response.status = 401) := by
    intro h; rw [h] at h5; exact absurd h5 (by decide)
  simp only [RedditRequest.responseErrorHandler, hscope, h404, h401, h5,
    Bool.false_eq_true, if_false, if_true, if_pos rfl]
  exact ⟨by simp, by simp, r.modifiedEndpoint endpoint, by simp, rfl, rfl,
    rfl, rfl, rfl, rfl⟩

/-- Witness for C3 at a concrete 503 response. -/
theorem responseErrorHandler_5xx_retries_without_reauth_witness :
    wwwAuthHasInsufficientScope resp503 = false ∧
    (toString resp503.status).take 1 = "5" ∧
    ((RedditRequest.responseErrorHandler rWithRefresh resp503
        epSample).reauthActions = [] ∧
     (RedditRequest.responseErrorHandler rWithRefresh resp503
        epSample).expiredEmits = 0 ∧
     ∃ e, (RedditRequest.responseErrorHandler rWithRefresh resp503
        epSample).outcome = HandlerOutcome.resolveEndpoint e ∧
       e.method = epSample.method ∧ e.path = epSample.path ∧
       e.args = epSample.args ∧ e.contextOptions = epSample.contextOptions ∧
       e.port = epSample.port ∧
       e.headers = rWithRefresh.buildHeaders epSample.contextOptions) :=
  ⟨by decide, by decide,
   responseErrorHandler_5xx_retries_without_reauth rWithRefresh resp503
     epSample (by decide) (by decide)⟩

/-- C10: on a 401 without the insufficient_scope header, while not app-only
and not bypassing auth, when the provider reports it can refresh but holds no
refresh token and the OAuth type is not script, no reauthentication action is
invoked, nothing is emitted, and the handler crashes (chaining .then on the
undefined reauthPromise), yielding neither a recovery endpoint nor a typed
rejection. -/
theorem responseErrorHandler_401_no_reauth_promise_crash
    (r : RedditRequest) (response : Response) (endpoint : Endpoint)
    (hscope : wwwAuthHasInsufficientScope response = false)
    (hstatus : response.status = 401)
    (happOnly : r.isApplicationOnly = false)
    (hbypass : endpoint.contextOptions.bypassAuth = false)
    (hrefresh : r.oauth.canRefreshAccessToken = true)
    (htoken : r.oauth.hasRefreshToken = false)
    (hscript : r.userConfig.isOAuthType "script" = false) :
    r.responseErrorHandler response endpoint =
      { outcome := .crash, reauthActions := [], expiredEmits := 0 } := by
  simp [RedditRequest.responseErrorHandler, hscope, hstatus, happOnly,
    hbypass, hrefresh, htoken, hscript, RedditRequest.thenRebuild]

/-- Witness for C10 at a concrete 401 under a web-type configuration whose
provider can refresh but holds no refresh token. -/
theorem responseErrorHandler_401_no_reauth_promise_crash_witness :
    wwwAuthHasInsufficientScope resp401 = false ∧
    resp401.status = 401 ∧
    rRefreshGap.isApplicationOnly = false ∧
    epSample.contextOptions.bypassAuth = false ∧
    rRefreshGap.oauth.canRefreshAccessToken = true ∧
    rRefreshGap.oauth.hasRefreshToken = false ∧
    rRefreshGap.userConfig.isOAuthType "script" = false ∧
    RedditRequest.responseErrorHandler rRefreshGap resp401 epSample =
      { outcome := .crash, reauthActions := [], expiredEmits := 0 } :=
  ⟨by decide, rfl, by decide, rfl, rfl, rfl, by decide,
   responseErrorHandler_401_no_reauth_promise_crash rRefreshGap resp401
     epSample (by decide) rfl (by decide) rfl rfl rfl (by decide)⟩

/-!
Theorems for the claims about handleSuccessResponse and the listing cursor.
-/

/-- C5: handleSuccessResponse is total (the promise always resolves); what it
feeds the JSON parser is the body defaulted to the empty string when absent
and html-entity decoded exactly when decodeHtmlEntities is set (decoding
precedes the parse attempt); a successful parse yields the parsed structure
and a failed parse yields that same possibly-decoded string unchanged. -/
theorem handleSuccessResponse_parse_or_raw (α : Type)
    (heDecode : String → String) (jsonParse : String → Option α)
    (response : Response) (endpoint : Endpoint) :
    (∀ j, jsonParse (decodedBody heDecode response endpoint) = some j →
      handleSuccessResponse heDecode jsonParse response endpoint =
        JsData.parsed j) ∧
    (jsonParse (decodedBody heDecode response endpoint) = none →
      handleSuccessResponse heDecode jsonParse response endpoint =
        JsData.str (decodedBody heDecode response endpoint)) ∧
    (response.body = none →
      handleSuccessResponse heDecode jsonParse response endpoint =
        handleSuccessResponse heDecode jsonParse
          { response with body := some "" } endpoint) := by
  refine ⟨fun j h => ?_, fun h => ?_, fun h => ?_⟩
  · simp only [handleSuccessResponse, decodedBody] at h ⊢
    rw [h]
  · simp only [handleSuccessResponse, decodedBody] at h ⊢
    rw [h]
  · simp [handleSuccessResponse, jsOrStr, h]

/-- A concrete html-entity decoder for the C5 witness. -/
def heDecodeW : String → String := fun s => s ++ "!"

/-- A concrete JSON parser for the C5 witness, accepting only the decoded
form of the witness body. -/
def jsonParseW : String → Option Nat :=
  fun s => if s = "42!" then some 7 else none

/-- A concrete 200 response with a body for the C5 witness. -/
def respBodyW : Response := { status := 200, body := some "42" }

/-- A concrete endpoint requesting html-entity decoding. -/
def epDecodeW : Endpoint :=
  { epSample with contextOptions := { decodeHtmlEntities := true } }

/-- Witness for C5: the parser only accepts the decoded body, and the
returned structure is the parsed one, showing decoding happened before the
parse attempt. -/
theorem handleSuccessResponse_parse_or_raw_witness :
    jsonParseW (decodedBody heDecodeW respBodyW epDecodeW) = some 7 ∧
    handleSuccessResponse heDecodeW jsonParseW respBodyW epDecodeW =
      JsData.parsed 7 :=
  ⟨by decide,
   (handleSuccessResponse_parse_or_raw Nat heDecodeW jsonParseW respBodyW
     epDecodeW).1 7 (by decide)⟩

/-- C6: every slice getSlice builds has children and stickied partitioning
allChildren: each is a subsequence of allChildren (so relative order is
preserved), together they are a permutation of allChildren, membership is
decided by the stickied flag, and empty holds exactly when allChildren has no
elements. -/
theorem getSlice_partition_invariant (contextOptions : ContextOptions)
    (count : Int) (result : ApiResult) (slice : Slice)
    (h : getSliceResult contextOptions count result = Except.ok slice) :
    slice.children.Sublist slice.allChildren ∧
    slice.stickied.Sublist slice.allChildren ∧
    (slice.children ++ slice.stickied).Perm slice.allChildren ∧
    (∀ c ∈ slice.children, c.data.stickied = false) ∧
    (∀ c ∈ slice.stickied, c.data.stickied = true) ∧
    (slice.empty = true ↔ slice.allChildren = []) := by
  obtain ⟨l, hl, hs⟩ :
      ∃ l, selectListing contextOptions result = Except.ok l ∧
        mkSlice count l = slice := by
    cases hsel : selectListing contextOptions result with
    | error e =>
      rw [getSliceResult, hsel] at h
      exact absurd h (by simp [Except.map])
    | ok l =>
      rw [getSliceResult, hsel] at h
      exact ⟨l, rfl, by simpa [Except.map] using h⟩
  subst hs
  simp only [mkSlice]
  refine ⟨List.filter_sublist _, List.filter_sublist _, ?_, ?_, ?_, ?_⟩
  · have hperm := List.filter_append_perm
      (fun c : Child => !c.data.stickied) (l.data.children.getD [])
    simpa only [Bool.not_not] using hperm
  · intro c hc
    have := (List.mem_filter.mp hc).2
    simpa using this
  · intro c hc
    exact (List.mem_filter.mp hc).2
  · simp [List.length_eq_zero]

/-- Witness for C6 at a concrete three-child listing with a stickied middle
child. -/
theorem getSlice_partition_invariant_witness :
    getSliceResult {} 0 (ApiResult.obj listingABC) =
      Except.ok (mkSlice 0 listingABC) ∧
    ((mkSlice 0 listingABC).children.Sublist
        (mkSlice 0 listingABC).allChildren ∧
     (mkSlice 0 listingABC).stickied.Sublist
        (mkSlice 0 listingABC).allChildren ∧
     ((mkSlice 0 listingABC).children ++
        (mkSlice 0 listingABC).stickied).Perm
        (mkSlice 0 listingABC).allChildren ∧
     (∀ c ∈ (mkSlice 0 listingABC).children, c.data.stickied = false) ∧
     (∀ c ∈ (mkSlice 0 listingABC).stickied, c.data.stickied = true) ∧
     ((mkSlice 0 listingABC).empty = true ↔
        (mkSlice 0 listingABC).allChildren = [])) :=
  ⟨rfl, getSlice_partition_invariant {} 0 (ApiResult.obj listingABC)
    (mkSlice 0 listingABC) rfl⟩

/-- C7: on a slice with at least one non-stickied child, next() issues a
request whose after argument is the name of the last non-stickied child,
whose before argument is null, and whose count argument is the previous
running count plus the limit captured from the original endpoint's args
(defaulting to 25). -/
theorem slice_next_request_args (r : RedditRequest) (origEndpoint : Endpoint)
    (count : Int) (listing : Listing) (endpoint : Endpoint) (lastChild : Child)
    (h : (mkSlice count listing).children.getLast? = some lastChild) :
    ∃ st, sliceNext r (navCtxOf origEndpoint) count (mkSlice count listing)
        endpoint = some st ∧
      st.request.args.after = some lastChild.data.name ∧
      st.request.args.before = none ∧
      st.request.args.count =
        some (count + (jsOrNat origEndpoint.args.limit 25 : Int)) := by
  unfold sliceNext
  rw [h]
  exact ⟨_, rfl, rfl, rfl, rfl⟩

/-- Witness for C7: on the concrete three-child listing with limit 2, next()
asks for after = the third child's name, before = null, count = 0 + 2. -/
theorem slice_next_request_args_witness :
    (mkSlice 0 listingABC).children.getLast? =
      some ⟨⟨"t3_c", false⟩⟩ ∧
    ∃ st, sliceNext rWithRefresh (navCtxOf epSample) 0 (mkSlice 0 listingABC)
        epSample = some st ∧
      st.request.args.after = some (Child.mk ⟨"t3_c", false⟩).data.name ∧
      st.request.args.before = none ∧
      st.request.args.count =
        some (0 + (jsOrNat epSample.args.limit 25 : Int)) :=
  ⟨by decide,
   slice_next_request_args rWithRefresh epSample 0 listingABC epSample
     ⟨⟨"t3_c", false⟩⟩ (by decide)⟩

/-- C8: after any successful sequence of navigation calls from the original
getListing invocation, start() issues a request whose count argument is 0,
whose after argument is the cursor captured at the original invocation (the
original endpoint's args.after, or null), and whose before argument is
null. -/
theorem slice_start_resets_cursor (r : RedditRequest)
    (origEndpoint : Endpoint) (trace : List (NavAction × Listing))
    (s : NavState)
    (_h : runNav r (navCtxOf origEndpoint) ⟨0, origEndpoint⟩ trace = some s) :
    (sliceStart r (navCtxOf origEndpoint) s.endpoint).request.args.count =
        some 0 ∧
    (sliceStart r (navCtxOf origEndpoint) s.endpoint).request.args.after =
        jsOrStrNull origEndpoint.args.after ∧
    (sliceStart r (navCtxOf origEndpoint) s.endpoint).request.args.before =
        none :=
  ⟨rfl, rfl, rfl⟩

/-- The listing-iteration state reached by a concrete next-then-previous
trace, for the C8 witness. -/
def navStateW : NavState :=
  (runNav rWithRefresh (navCtxOf epSample) ⟨0, epSample⟩
    [(NavAction.next, listingABC), (NavAction.previous, listingABC)]).getD
    ⟨0, epSample⟩

/-- Witness for C8: after a concrete next-then-previous trace, start() resets
count to 0 and after to the original cursor of epSample. -/
theorem slice_start_resets_cursor_witness :
    runNav rWithRefresh (navCtxOf epSample) ⟨0, epSample⟩
        [(NavAction.next, listingABC), (NavAction.previous, listingABC)] =
      some navStateW ∧
    ((sliceStart rWithRefresh (navCtxOf epSample)
        navStateW.endpoint).request.args.count = some 0 ∧
     (sliceStart rWithRefresh (navCtxOf epSample)
        navStateW.endpoint).request.args.after =
        jsOrStrNull epSample.args.after ∧
     (sliceStart rWithRefresh (navCtxOf epSample)
        navStateW.endpoint).request.args.before = none) :=
  ⟨by decide,
   slice_start_resets_cursor rWithRefresh epSample
     [(NavAction.next, listingABC), (NavAction.previous, listingABC)]
     navStateW (by decide)⟩

/-- C9 counterexample: at a concrete slice and endpoint, next() does not
leave the originating endpoint unchanged (newArgs aliases endpoint.args, so
the originating endpoint's args mapping is mutated), hence a subsequent
requery() does not re-issue the original request either. -/
theorem nav_leaves_endpoint_unchanged_counterexample :
    (sliceNext rWithRefresh (navCtxOf epSample) 0 (mkSlice 0 listingABC)
        epSample).map NavStep.endpointAfter ≠ some epSample ∧
    (sliceNext rWithRefresh (navCtxOf epSample) 0 (mkSlice 0 listingABC)
        epSample).map (fun st => sliceRequery st.endpointAfter) ≠
      some epSample := by
  constructor <;> decide

/-- C9 amended: next(), previous() and start() each build a fresh request
Endpoint carrying the originating endpoint's hostname, method, path,
contextOptions and port with headers recomputed by buildHeaders, but they
mutate the originating endpoint's args mapping in place through the newArgs
alias, so afterwards the originating endpoint carries exactly the new
request's args; requery() re-issues the captured endpoint as it currently
stands (with the mutated args, not the original request). -/
theorem nav_builds_fresh_request_but_mutates_args (r : RedditRequest)
    (ctx : NavCtx) (count : Int) (slice : Slice) (endpoint : Endpoint) :
    (∀ st, sliceNext r ctx count slice endpoint = some st →
      st.endpointAfter =
        { endpoint with givenArgs := st.request.givenArgs } ∧
      st.request.method = endpoint.method ∧
      st.request.path = endpoint.path ∧
      st.request.port = endpoint.port ∧
      st.request.contextOptions = endpoint.contextOptions ∧
      st.request.headers = r.buildHeaders endpoint.contextOptions) ∧
    (∀ st, slicePrevious r ctx count slice endpoint = some st →
      st.endpointAfter =
        { endpoint with givenArgs := st.request.givenArgs } ∧
      st.request.method = endpoint.method ∧
      st.request.path = endpoint.path ∧
      st.request.port = endpoint.port ∧
      st.request.contextOptions = endpoint.contextOptions ∧
      st.request.headers = r.buildHeaders endpoint.contextOptions) ∧
    ((sliceStart r ctx endpoint).endpointAfter =
      { endpoint with
        givenArgs := (sliceStart r ctx endpoint).request.givenArgs }) ∧
    (∀ e, sliceRequery e = e) := by
  refine ⟨fun st h => ?_, fun st h => ?_, rfl, fun e => rfl⟩
  · unfold sliceNext at h
    cases hl : slice.children.getLast? with
    | none => rw [hl] at h; exact absurd h (by simp)
    | some c =>
      rw [hl] at h
      have hst := Option.some.inj h
      subst hst
      exact ⟨rfl, rfl, rfl, rfl, rfl, rfl⟩
  · unfold slicePrevious at h
    cases hl : slice.children.head? with
    | none => rw [hl] at h; exact absurd h (by simp)
    | some c =>
      rw [hl] at h
      have hst := Option.some.inj h
      subst hst
      exact ⟨rfl, rfl, rfl, rfl, rfl, rfl⟩

/-- The concrete navigation step taken by next() on the three-child listing,
for the C9 witness. -/
def navStepW : NavStep :=
  (sliceNext rWithRefresh (navCtxOf epSample) 0 (mkSlice 0 listingABC)
    epSample).getD ⟨0, epSample, epSample⟩

/-- Witness for the amended C9 at the concrete next() step: the originating
endpoint afterwards carries the new request's args while the request shares
method, path, port and contextOptions. -/
theorem nav_builds_fresh_request_but_mutates_args_witness :
    sliceNext rWithRefresh (navCtxOf epSample) 0 (mkSlice 0 listingABC)
        epSample = some navStepW ∧
    (navStepW.endpointAfter =
        { epSample with givenArgs := navStepW.request.givenArgs } ∧
      navStepW.request.method = epSample.method ∧
      navStepW.request.path = epSample.path ∧
      navStepW.request.port = epSample.port ∧
      navStepW.request.contextOptions = epSample.contextOptions ∧
      navStepW.request.headers =
        rWithRefresh.buildHeaders epSample.contextOptions) :=
  ⟨by decide,
   (nav_builds_fresh_request_but_mutates_args rWithRefresh
     (navCtxOf epSample) 0 (mkSlice 0 listingABC) epSample).1 navStepW
     (by decide)⟩

end Snoocore
